import Mathlib

/-!
Shallow embedding of the baseConnector data-connector core (error
classification, retrying HTTP transport, Kafka publishing, and the
extract-transform-publish pipeline) together with theorems settling the
specification claims about it.

JavaScript objects are modelled by explicit structures; absent fields are
`Option.none`; JavaScript truthiness is modelled explicitly where the source
relies on it (`if (data.id)`, `metadata.source || 'default'`, `!rawData`).
-/

/-- A primitive JavaScript value as far as key derivation and truthiness are
concerned: a number or a string. -/
inductive JsVal where
  | num (n : Int)
  | str (s : String)
deriving DecidableEq, Repr

/-- JavaScript truthiness of a primitive value: `0` and `""` are falsy. -/
def JsVal.jsTruthy : JsVal → Bool
  | .num n => n ≠ 0
  | .str s => s ≠ ""

/-- `String(v)` in JavaScript for a primitive value. -/
def JsVal.jsString : JsVal → String
  | .num n => toString n
  | .str s => s

/-- Truthiness of a possibly-absent value (`undefined` is falsy). -/
def jsTruthyOpt : Option JsVal → Bool
  | none => false
  | some v => v.jsTruthy

/-- `String(x)` for a possibly-absent value; `String(undefined) = "undefined"`. -/
def jsStringOpt : Option JsVal → String
  | none => "undefined"
  | some v => v.jsString

/-- `x || dflt` for an optional string operand, with JavaScript truthiness:
an absent or empty string falls through to the default. -/
def jsOrStr (x : Option String) (dflt : String) : String :=
  match x with
  | none => dflt
  | some s => if s = "" then dflt else s

/-- A JavaScript `Error` object as consumed by `ErrorHandler`
(utils/errorHandler.js): optional low-level `code`, optional `statusCode`,
and the `isHttpError` marker set by `createHttpError`. -/
structure JsError where
  message : String := ""
  code : Option String := none
  statusCode : Option Int := none
  isHttpError : Bool := false
deriving DecidableEq, Repr

namespace ErrorHandler

/-- The transient-network code list of `ErrorHandler.isRecoverable`
(utils/errorHandler.js lines 114-120). -/
def recoverableErrors : List String :=
  ["ECONNRESET", "ETIMEDOUT", "ENOTFOUND", "EAI_AGAIN", "ECONNREFUSED"]

/-- `recoverableErrors.includes(error.code)`; an absent code matches nothing. -/
def codeInRecoverableList (c : Option String) : Bool :=
  match c with
  | none => false
  | some s => recoverableErrors.contains s

/-- `error.isHttpError && error.statusCode >= 500 && error.statusCode < 600`;
comparisons against an absent `statusCode` are false in JavaScript. -/
def isHttp5xx (e : JsError) : Bool :=
  e.isHttpError &&
    (match e.statusCode with
     | none => false
     | some s => decide (500 ≤ s) && decide (s < 600))

/-- `ErrorHandler.isRecoverable` (utils/errorHandler.js lines 113-127):
code in the transient list, OR tagged HTTP error with 5xx status, OR
`statusCode === 429` (with no `isHttpError` requirement). -/
def isRecoverable (e : JsError) : Bool :=
  codeInRecoverableList e.code || isHttp5xx e || (e.statusCode == some 429)

/-- `ErrorHandler.createHttpError` (utils/errorHandler.js lines 101-106). -/
def createHttpError (statusCode : Int) (message : String) : JsError :=
  { message := message, statusCode := some statusCode, isHttpError := true }

/-- The `ErrorInfo` record built by `ErrorHandler.handle`, restricted to the
fields the claims mention (context, message, recoverable, and the extra
strategy/source fields added by `handleStrategyError`). -/
structure ErrorInfo where
  context : String
  message : String
  recoverable : Bool
  strategyName : String
  sourceName : String
deriving DecidableEq, Repr

/-- `ErrorHandler.handle` (utils/errorHandler.js lines 61-93), with the
`extra` argument fixed to the `{strategyName, sourceName}` shape used by
`handleStrategyError`; monitoring sinks are fire-and-forget and do not
affect the returned record. -/
def handle (e : JsError) (context strategyName sourceName : String) : ErrorInfo :=
  { context := context
    message := e.message
    recoverable := isRecoverable e
    strategyName := strategyName
    sourceName := sourceName }

/-- `ErrorHandler.handleStrategyError` (utils/errorHandler.js lines 135-146). -/
def handleStrategyError (e : JsError) (strategyName sourceName : String) : ErrorInfo :=
  handle e (s!"Strategy[{strategyName}] Source[{sourceName}]") strategyName sourceName

end ErrorHandler

/-- The recoverability predicate exactly as claim C1 words it (spec §4.1 /
§8): code in the transient-network set, or an HTTP status in [500,599]
regardless of any tag, or HTTP status 429. -/
def specRecoverableC1 (e : JsError) : Bool :=
  ErrorHandler.codeInRecoverableList e.code ||
    (match e.statusCode with
     | none => false
     | some s => decide (500 ≤ s) && decide (s < 600)) ||
    (e.statusCode == some 429)

/-- An axios-level failure as seen by `HttpClient.shouldRetry`
(utils/httpCLient.js): optional low-level `code` and `error.response?.status`
(`none` models a pure network failure with no HTTP response at all). -/
structure AxiosError where
  message : String := ""
  code : Option String := none
  responseStatus : Option Int := none
deriving DecidableEq, Repr

namespace HttpClient

/-- The `HttpClient` constructor defaults (utils/httpCLient.js lines 10-12):
`HTTP_TIMEOUT` 30000, `HTTP_MAX_RETRIES` 3, `HTTP_RETRY_DELAY` 1000. -/
structure Config where
  defaultTimeout : Nat := 30000
  maxRetries : Nat := 3
  retryDelay : Nat := 1000
deriving DecidableEq, Repr

/-- `HttpClient.shouldRetry` (utils/httpCLient.js lines 64-77): refuse when
`retryCount + 1 >= maxRetries`; otherwise retry every error without a
response, and responses with status `>= 500` or `=== 429`. -/
def shouldRetry (cfg : Config) (e : AxiosError) (retryCount : Nat) : Bool :=
  if retryCount + 1 ≥ cfg.maxRetries then false
  else
    match e.responseStatus with
    | none => true
    | some status => decide (status ≥ 500) || status == 429

/-- `HttpClient.calculateBackoff` (utils/httpCLient.js lines 84-86):
`retryDelay * 2 ^ retryCount`. -/
def calculateBackoff (cfg : Config) (retryCount : Nat) : Nat :=
  cfg.retryDelay * 2 ^ retryCount

/-- The `catchError` normalization of `HttpClient.request` (lines 45-54):
`createHttpError(error.response?.status || 500, error.message)`; a
missing response, and JavaScript-falsy status 0, both default to 500. -/
def normalizeError (e : AxiosError) : JsError :=
  ErrorHandler.createHttpError
    (match e.responseStatus with
     | none => 500
     | some s => if s = 0 then 500 else s)
    e.message

/-- Outcome of one `request` run: the normalized result, how many attempts
were issued in total, and the backoff delays waited between them. -/
structure RunResult (α : Type) where
  result : Except JsError α
  attemptsMade : Nat
  delays : List Nat
deriving Repr

/-- The retry loop of `HttpClient.request` (utils/httpCLient.js lines 30-44),
driven by an environment `attempt` giving the outcome of each attempt
(attempt 0 is the initial request). `fuel` is the number of retries the
rxjs `retry({count: maxRetries})` operator still allows; on each error the
`delay` callback consults `shouldRetry` with the 1-indexed retry number and
either schedules `calculateBackoff(retryCount - 1)` or rethrows, and a
rethrown or exhausted error is normalized by `catchError`. -/
def retryLoop (cfg : Config) (attempt : Nat → Except AxiosError α) :
    Nat → Nat → List Nat → RunResult α
  | 0, k, acc =>
    match attempt k with
    | .ok r => ⟨.ok r, k + 1, acc.reverse⟩
    | .error e => ⟨.error (normalizeError e), k + 1, acc.reverse⟩
  | fuel + 1, k, acc =>
    match attempt k with
    | .ok r => ⟨.ok r, k + 1, acc.reverse⟩
    | .error e =>
      if shouldRetry cfg e (k + 1) then
        retryLoop cfg attempt fuel (k + 1) (calculateBackoff cfg k :: acc)
      else
        ⟨.error (normalizeError e), k + 1, acc.reverse⟩

/-- `HttpClient.request` (utils/httpCLient.js lines 20-56) as the retry loop
started at the initial attempt with `maxRetries` retries of budget. -/
def request (cfg : Config) (attempt : Nat → Except AxiosError α) : RunResult α :=
  retryLoop cfg attempt cfg.maxRetries 0 []

end HttpClient

/-- The §4.1 recoverability classification as claim C4 invokes it, applied to
a transport-level failure: low-level code in the transient-network set, or
HTTP status in [500,599], or HTTP status 429. -/
def spec41Recoverable (e : AxiosError) : Bool :=
  ErrorHandler.codeInRecoverableList e.code ||
    (match e.responseStatus with
     | none => false
     | some s => decide (500 ≤ s) && decide (s < 600)) ||
    (e.responseStatus == some 429)

/-- A payload item as `KafkaPublisher.generateKey` inspects it: its optional
`id` and `_id` fields (`mId` models the `_id` field). -/
structure Item where
  id : Option JsVal := none
  mId : Option JsVal := none
deriving DecidableEq, Repr

/-- The `metadata` argument of `KafkaPublisher.publish`: optional `source`
and `type` fields. -/
structure PubMeta where
  source : Option String := none
  type : Option String := none
deriving DecidableEq, Repr

namespace KafkaPublisher

/-- `KafkaPublisher.generateKey` (core/kafkaPublisher.js lines 174-185):
`if (data.id) return String(data.id); if (data._id) return String(data._id);
return metadata.source || 'default';` — the `if` tests are JavaScript
truthiness, so a present but falsy `id` (0 or "") falls through. -/
def generateKey (data : Item) (metadata : PubMeta) : String :=
  if jsTruthyOpt data.id then jsStringOpt data.id
  else if jsTruthyOpt data.mId then jsStringOpt data.mId
  else jsOrStr metadata.source "default"

end KafkaPublisher

/-- The key derivation exactly as claim C8 words it: string form of `id` if
present, else string form of `_id`, else `metadata.source`, else the literal
"default" — presence alone decides, with no truthiness test. -/
def specKeyC8 (data : Item) (metadata : PubMeta) : String :=
  match data.id with
  | some v => v.jsString
  | none =>
    match data.mId with
    | some v => v.jsString
    | none =>
      match metadata.source with
      | some s => s
      | none => "default"

/-- The envelope metadata built by `DataFormatter.formatForKafka`
(utils/dataFormatter.js lines 39-47). -/
structure EnvelopeMeta where
  source : String
  type : String
  timestamp : String
  version : String
deriving DecidableEq, Repr

/-- The `{metadata, payload}` envelope wrapped around every payload item. -/
structure Envelope where
  metadata : EnvelopeMeta
  payload : Item
deriving DecidableEq, Repr

/-- The value placed in an outbound record: either the schema-registry
encoding (opaque bytes, modelled by a `Nat` handle) or the plain envelope. -/
inductive KafkaValue where
  | encoded (bytes : Nat)
  | plain (envelope : Envelope)
deriving DecidableEq, Repr

namespace DataFormatter

/-- `DataFormatter` registry state (utils/dataFormatter.js lines 5-12):
whether `KAFKA_USE_SCHEMA_REGISTRY` is on and a client was built. -/
structure Config where
  useSchemaRegistry : Bool := false
  hasClient : Bool := false
deriving DecidableEq, Repr

/-- The `options` argument of `formatForKafka`: optional `subject` and
`schemaId` overrides. -/
structure FormatOptions where
  subject : Option String := none
  schemaId : Option String := none
deriving DecidableEq, Repr

/-- The envelope `message` built at the top of `formatForKafka`
(utils/dataFormatter.js lines 39-47), with the wall clock passed in as the
ISO timestamp string. -/
def buildEnvelope (data : Item) (source type ts : String) : Envelope :=
  { metadata := { source := source, type := type, timestamp := ts, version := "1.0" }
    payload := data }

/-- The subject consulted for encoding: `options.schemaId || (options.subject
|| source-type-value)` per lines 52-54 (both fallbacks use `||`). -/
def encodeSubject (source type : String) (options : FormatOptions) : String :=
  jsOrStr options.schemaId (jsOrStr options.subject (s!"{source}-{type}-value"))

/-- `DataFormatter.formatForKafka` (utils/dataFormatter.js lines 38-65),
with the schema-registry `encode` call supplied as an environment function
from subject and envelope to an encoding or a failure. When the registry is
off or encoding fails (failure is logged), the plain envelope is returned. -/
def formatForKafka (cfg : Config) (encode : String → Envelope → Except JsError Nat)
    (data : Item) (source type : String) (options : FormatOptions) (ts : String) :
    KafkaValue :=
  let message := buildEnvelope data source type ts
  if cfg.useSchemaRegistry && cfg.hasClient then
    match encode (encodeSubject source type options) message with
    | .ok encodedPayload => .encoded encodedPayload
    | .error _ => .plain message
  else
    .plain message

end DataFormatter

/-- Headers attached to every outbound record by
`KafkaPublisher.prepareMessages` (core/kafkaPublisher.js lines 155-159). -/
structure RecordHeaders where
  source : String
  type : String
  timestamp : String
deriving DecidableEq, Repr

/-- One outbound Kafka record as assembled by `prepareMessages`
(core/kafkaPublisher.js lines 152-160): partition key, value, headers. -/
structure KafkaRecord where
  key : String
  value : KafkaValue
  headers : RecordHeaders
deriving DecidableEq, Repr

namespace KafkaPublisher

/-- The per-item body of `KafkaPublisher.prepareMessages`
(core/kafkaPublisher.js lines 146-162): format the item with
`metadata.source || 'unknown'` and `metadata.type || 'data'`, derive the
partition key with `generateKey(item, metadata)`, and attach the headers. -/
def prepareMessage (cfg : DataFormatter.Config)
    (encode : String → Envelope → Except JsError Nat)
    (item : Item) (metadata : PubMeta) (ts : String) : KafkaRecord :=
  { key := generateKey item metadata
    value := DataFormatter.formatForKafka cfg encode item
      (jsOrStr metadata.source "unknown") (jsOrStr metadata.type "data") {} ts
    headers :=
      { source := jsOrStr metadata.source "unknown"
        type := jsOrStr metadata.type "data"
        timestamp := ts } }

/-- `KafkaPublisher.prepareMessages` (core/kafkaPublisher.js lines 143-165):
normalize the payload to a list and build one record per item. -/
def prepareMessages (cfg : DataFormatter.Config)
    (encode : String → Envelope → Except JsError Nat)
    (dataArray : List Item) (metadata : PubMeta) (ts : String) : List KafkaRecord :=
  dataArray.map (fun item => prepareMessage cfg encode item metadata ts)

end KafkaPublisher

/-- Raw or transformed data flowing through a pipeline run: `null` covers
JavaScript `null`/`undefined` (falsy, hence "no data"), `arr` an array of
items, `obj` a single non-array truthy value. -/
inductive JsData where
  | null
  | arr (items : List Item)
  | obj (item : Item)
deriving DecidableEq, Repr

/-- The emptiness test of `execute` (core/baseStrategy.js line 75):
`!rawData || (Array.isArray(rawData) && rawData.length === 0)`. -/
def isEmptyData : JsData → Bool
  | .null => true
  | .arr items => items.isEmpty
  | .obj _ => false

/-- `Array.isArray(transformedData) ? transformedData.length : 1`
(core/baseStrategy.js line 91). -/
def recordCountOf : JsData → Nat
  | .arr items => items.length
  | _ => 1

/-- The slice of a SourceConfig that `BaseStrategy.execute` reads. -/
structure StrategyConfig where
  name : String
  type : String
  kafkaTopic : Option String := none
  interval : Nat := 60000
deriving DecidableEq, Repr

/-- The topic chosen on the publish step (core/baseStrategy.js line 84):
`this.config.kafkaTopic || connector.<type>.<name>`. -/
def topicOf (cfg : StrategyConfig) : String :=
  jsOrStr cfg.kafkaTopic (s!"connector.{cfg.type}.{cfg.name}")

/-- The metadata passed to `publish` (core/baseStrategy.js lines 85-88):
`{source: this.name, type: this.type}`. -/
def strategyMeta (cfg : StrategyConfig) : PubMeta :=
  { source := some cfg.name, type := some cfg.type }

/-- The mutable per-strategy run state (core/baseStrategy.js lines 29-32). -/
structure StrategyState where
  isRunning : Bool := false
  lastExecution : Option Nat := none
  lastError : Option ErrorHandler.ErrorInfo := none
  executionCount : Nat := 0
deriving DecidableEq, Repr

/-- The behavior of the three pipeline stages during one run: the outcome of
`extract()`, of `transform(rawData)`, and of
`kafkaPublisher.publish(topic, data, metadata)`. An `.error` models a
rejected promise / thrown exception / errored observable. -/
structure ExecEnv where
  extract : Except JsError JsData
  transform : JsData → Except JsError JsData
  publish : String → JsData → PubMeta → Except JsError Unit

/-- Which stage calls one `execute` run actually issued. -/
structure ExecTrace where
  extractCalls : Nat := 0
  transformCalls : Nat := 0
  publishCalls : List (String × JsData × PubMeta) := []
deriving DecidableEq, Repr

/-- The value `execute` resolves with: `{skipped: true}`, or
`{success: true, recordsProcessed, duration?}` (the empty-data early return
of the async variant carries no duration), or
`{success: false, error, duration}`. -/
inductive ExecResult where
  | skipped
  | success (recordsProcessed : Nat) (duration : Option Nat)
  | failure (error : ErrorHandler.ErrorInfo) (duration : Nat)
deriving DecidableEq, Repr

namespace BaseStrategy

/-- `BaseStrategy.execute` (core/baseStrategy.js lines 60-116), the plain
async variant, as a state-passing function. `className` is
`this.constructor.name`, `dur` the elapsed `Date.now() - startTime`, and
`tNow` the completion wall-clock recorded into `lastExecution`. The
`finally` clause clearing `isRunning` is applied on every path that entered
the `try` block; the guard path returns before setting the flag. -/
def execute (cfg : StrategyConfig) (className : String) (env : ExecEnv)
    (dur tNow : Nat) (s : StrategyState) :
    ExecResult × StrategyState × ExecTrace :=
  if s.isRunning then
    (.skipped, s, {})
  else
    let s1 := { s with isRunning := true }
    match env.extract with
    | .error e =>
      let info := ErrorHandler.handleStrategyError e className cfg.name
      (.failure info dur,
       { s1 with lastError := some info, isRunning := false },
       { extractCalls := 1 })
    | .ok rawData =>
      if isEmptyData rawData then
        (.success 0 none, { s1 with isRunning := false }, { extractCalls := 1 })
      else
        match env.transform rawData with
        | .error e =>
          let info := ErrorHandler.handleStrategyError e className cfg.name
          (.failure info dur,
           { s1 with lastError := some info, isRunning := false },
           { extractCalls := 1, transformCalls := 1 })
        | .ok transformedData =>
          match env.publish (topicOf cfg) transformedData (strategyMeta cfg) with
          | .error e =>
            let info := ErrorHandler.handleStrategyError e className cfg.name
            (.failure info dur,
             { s1 with lastError := some info, isRunning := false },
             { extractCalls := 1, transformCalls := 1
               publishCalls := [(topicOf cfg, transformedData, strategyMeta cfg)] })
          | .ok _ =>
            (.success (recordCountOf transformedData) (some dur),
             { isRunning := false, lastExecution := some tNow, lastError := none
               executionCount := s.executionCount + 1 },
             { extractCalls := 1, transformCalls := 1
               publishCalls := [(topicOf cfg, transformedData, strategyMeta cfg)] })

end BaseStrategy

namespace BaseStrategyReactive

/-- The reactive-stream variant of `BaseStrategy.execute`
(utils/dataFormatter.js lines 386-441), sequentialized along one
subscription. It differs from the async variant in two observable ways: the
empty-data result carries a `duration`, and — because that result flows
through the success `tap` placed before `catchError` — the empty-data path
also sets `lastExecution`, clears `lastError`, and increments
`executionCount`. Failures are caught by `catchError` after the `tap`, and
`finalize` clears `isRunning` on every path that started. -/
def execute (cfg : StrategyConfig) (className : String) (env : ExecEnv)
    (dur tNow : Nat) (s : StrategyState) :
    ExecResult × StrategyState × ExecTrace :=
  if s.isRunning then
    (.skipped, s, {})
  else
    let s1 := { s with isRunning := true }
    match env.extract with
    | .error e =>
      let info := ErrorHandler.handleStrategyError e className cfg.name
      (.failure info dur,
       { s1 with lastError := some info, isRunning := false },
       { extractCalls := 1 })
    | .ok rawData =>
      if isEmptyData rawData then
        (.success 0 (some dur),
         { isRunning := false, lastExecution := some tNow, lastError := none
           executionCount := s.executionCount + 1 },
         { extractCalls := 1 })
      else
        match env.transform rawData with
        | .error e =>
          let info := ErrorHandler.handleStrategyError e className cfg.name
          (.failure info dur,
           { s1 with lastError := some info, isRunning := false },
           { extractCalls := 1, transformCalls := 1 })
        | .ok transformedData =>
          match env.publish (topicOf cfg) transformedData (strategyMeta cfg) with
          | .error e =>
            let info := ErrorHandler.handleStrategyError e className cfg.name
            (.failure info dur,
             { s1 with lastError := some info, isRunning := false },
             { extractCalls := 1, transformCalls := 1
               publishCalls := [(topicOf cfg, transformedData, strategyMeta cfg)] })
          | .ok _ =>
            (.success (recordCountOf transformedData) (some dur),
             { isRunning := false, lastExecution := some tNow, lastError := none
               executionCount := s.executionCount + 1 },
             { extractCalls := 1, transformCalls := 1
               publishCalls := [(topicOf cfg, transformedData, strategyMeta cfg)] })

end BaseStrategyReactive

/-- The first stage failure, if any, a quiescent run with stage behavior
`env` encounters, following the control flow of `execute`: `extract` first;
an empty extraction ends the run; otherwise `transform`, then `publish` on
the derived topic and metadata. -/
def firstFailure (cfg : StrategyConfig) (env : ExecEnv) : Option JsError :=
  match env.extract with
  | .error e => some e
  | .ok rawData =>
    if isEmptyData rawData then none
    else
      match env.transform rawData with
      | .error e => some e
      | .ok transformedData =>
        match env.publish (topicOf cfg) transformedData (strategyMeta cfg) with
        | .error e => some e
        | .ok _ => none

/-- The key derivation claim C8 amended by the truthiness the source tests
with: use `String(id)` when `id` is present and truthy, else `String(_id)`
when present and truthy, else a nonempty `metadata.source`, else "default". -/
def amendedKeyC8 (data : Item) (metadata : PubMeta) : String :=
  let fromSource : String :=
    match metadata.source with
    | some s => if s = "" then "default" else s
    | none => "default"
  let fromMid : String :=
    match data.mId with
    | some v => if v.jsTruthy then v.jsString else fromSource
    | none => fromSource
  match data.id with
  | some v => if v.jsTruthy then v.jsString else fromMid
  | none => fromMid

/-- A concrete source configuration used to instantiate the pipeline claims. -/
def cfgCrm : StrategyConfig := { name := "crm", type := "api" }

/-- A stage environment whose extraction yields an empty array and whose
other stages succeed (the "tick with 0 items" scenario). -/
def emptyTickEnv : ExecEnv :=
  { extract := Except.ok (JsData.arr [])
    transform := fun d => Except.ok d
    publish := fun _ _ _ => Except.ok () }

/-- A concrete transient-transport failure. -/
def boomError : JsError := { message := "boom", code := some "ECONNRESET" }

/-- A stage environment whose extraction always fails with `boomError`. -/
def failEnv : ExecEnv :=
  { extract := Except.error boomError
    transform := fun d => Except.ok d
    publish := fun _ _ _ => Except.ok () }

/-- A schema-registry encoder that fails on every envelope. -/
def alwaysFailEncode : String → Envelope → Except JsError Nat :=
  fun _ _ => Except.error { message := "Schema encode failed" }

/-- C1 counterexample: an error carrying HTTP status 503 but not tagged by
`createHttpError` (`isHttpError` false, no low-level code) is classified
non-recoverable by the code, while the claim's wording makes any error with
a status in [500,599] recoverable. -/
theorem isRecoverable_untagged_503_counterexample :
    ErrorHandler.isRecoverable { statusCode := some 503 } = false ∧
    specRecoverableC1 { statusCode := some 503 } = true := by
  constructor <;> rfl

/-- C1 (amended): the classifier returns true iff the error's low-level code
is in the transient-network list, or the error is tagged `isHttpError` and
carries a status in [500,599], or its status equals 429 (the 429 test needs
no tag). -/
theorem isRecoverable_iff_amended (e : JsError) :
    ErrorHandler.isRecoverable e = true ↔
      ((∃ c, e.code = some c ∧ c ∈ ErrorHandler.recoverableErrors) ∨
        (e.isHttpError = true ∧ ∃ s, e.statusCode = some s ∧ 500 ≤ s ∧ s < 600) ∨
        e.statusCode = some 429) := by
  obtain ⟨msg, code, status, http⟩ := e
  cases code <;> cases status <;> cases http <;>
    simp [ErrorHandler.isRecoverable, ErrorHandler.isHttp5xx,
      ErrorHandler.codeInRecoverableList, List.contains_iff_exists_mem_beq,
      and_assoc, or_assoc]

/-- C8 counterexample: a record with the present but falsy identifier
`id: 0` and no metadata source gets partition key "default", while the
claim's presence-based wording derives "0". -/
theorem generateKey_falsy_id_counterexample :
    KafkaPublisher.generateKey { id := some (.num 0) } {} = "default" ∧
    specKeyC8 { id := some (.num 0) } {} = "0" ∧
    ("default" : String) ≠ "0" := by
  refine ⟨rfl, rfl, by decide⟩

/-- C8 (amended): the partition key is the string form of `id` when `id` is
present and truthy (nonzero, nonempty), else of `_id` under the same test,
else a present nonempty `metadata.source`, else the literal "default"; the
spec's three worked examples hold as stated. -/
theorem generateKey_eq_amendedKeyC8 :
    (∀ (data : Item) (metadata : PubMeta),
      KafkaPublisher.generateKey data metadata = amendedKeyC8 data metadata) ∧
    KafkaPublisher.generateKey { id := some (.num 42) } {} = "42" ∧
    KafkaPublisher.generateKey { mId := some (.str "abc") } {} = "abc" ∧
    KafkaPublisher.generateKey {} { source := some "crm" } = "crm" := by
  refine ⟨?_, rfl, rfl, rfl⟩
  intro data metadata
  obtain ⟨id, mId⟩ := data
  obtain ⟨src, ty⟩ := metadata
  cases id <;> cases mId <;> cases src <;>
    simp [KafkaPublisher.generateKey, amendedKeyC8, jsTruthyOpt, jsStringOpt,
      jsOrStr]

/-- Helper: the retry loop makes at most `fuel` more attempts beyond the one
issued at position `k`. -/
theorem retryLoop_attemptsMade_le (cfg : HttpClient.Config) {α : Type}
    (attempt : Nat → Except AxiosError α) :
    ∀ (fuel k : Nat) (acc : List Nat),
      (HttpClient.retryLoop cfg attempt fuel k acc).attemptsMade ≤ k + 1 + fuel := by
  intro fuel
  induction fuel with
  | zero =>
    intro k acc
    unfold HttpClient.retryLoop
    cases attempt k <;> simp
  | succ f ih =>
    intro k acc
    unfold HttpClient.retryLoop
    cases h : attempt k with
    | ok r => simp
    | error e =>
      by_cases hs : HttpClient.shouldRetry cfg e (k + 1)
      · simpa [hs] using
          le_trans (ih (k + 1) (HttpClient.calculateBackoff cfg k :: acc)) (by omega)
      · simp [hs]

/-- Helper: the delays recorded by the retry loop are the consecutive
backoffs `calculateBackoff k, calculateBackoff (k+1), ...` appended to the
accumulator. -/
theorem retryLoop_delays_spec (cfg : HttpClient.Config) {α : Type}
    (attempt : Nat → Except AxiosError α) :
    ∀ (fuel k : Nat) (acc : List Nat),
      ∃ m, (HttpClient.retryLoop cfg attempt fuel k acc).delays =
        acc.reverse ++ (List.range' k m).map (HttpClient.calculateBackoff cfg) := by
  intro fuel
  induction fuel with
  | zero =>
    intro k acc
    refine ⟨0, ?_⟩
    unfold HttpClient.retryLoop
    cases attempt k <;> simp
  | succ f ih =>
    intro k acc
    unfold HttpClient.retryLoop
    cases h : attempt k with
    | ok r => exact ⟨0, by simp⟩
    | error e =>
      by_cases hs : HttpClient.shouldRetry cfg e (k + 1)
      · obtain ⟨m, hm⟩ := ih (k + 1) (HttpClient.calculateBackoff cfg k :: acc)
        refine ⟨m + 1, ?_⟩
        simp [hs, hm, List.range'_succ]
      · exact ⟨0, by simp [hs]⟩

/-- C4 counterexample: at retry 1 of a default client (`maxRetries` 3, so
the attempt count 2 is below the cap), an error with no HTTP response and
the non-transient code EACCES is retried by `shouldRetry`, although the
§4.1 classification deems it non-recoverable. -/
theorem shouldRetry_disagrees_with_spec41 :
    HttpClient.shouldRetry {} { code := some "EACCES" } 1 = true ∧
    spec41Recoverable { code := some "EACCES" } = false ∧
    (1 : Nat) + 1 < ({} : HttpClient.Config).maxRetries := by
  refine ⟨rfl, rfl, by decide⟩

/-- C4 (amended): the transport retries iff `retryCount + 1 < maxRetries`
AND the error either lacks an HTTP response entirely (whatever its code) or
has response status ≥ 500 (with no upper bound) or exactly 429; and over any
behavior of the attempts it issues at most `maxRetries` additional attempts
beyond the first. -/
theorem shouldRetry_characterization_and_attempt_bound :
    ∀ (cfg : HttpClient.Config) (e : AxiosError) (k : Nat),
      (HttpClient.shouldRetry cfg e k = true ↔
        (k + 1 < cfg.maxRetries ∧
          (e.responseStatus = none ∨
            ∃ s, e.responseStatus = some s ∧ (500 ≤ s ∨ s = 429)))) ∧
      ∀ (α : Type) (attempt : Nat → Except AxiosError α),
        (HttpClient.request cfg attempt).attemptsMade ≤ cfg.maxRetries + 1 := by
  intro cfg e k
  constructor
  · unfold HttpClient.shouldRetry
    by_cases hc : k + 1 ≥ cfg.maxRetries
    · simp [hc]
      try omega
    · cases hst : e.responseStatus <;> simp [hc, hst] <;> try omega
  · intro α attempt
    simpa [Nat.add_comm] using
      retryLoop_attemptsMade_le cfg attempt cfg.maxRetries 0 []

/-- C5: every delay the transport schedules is pure exponential backoff —
the list of waits of any run is exactly `retryDelay * 2 ^ n` at position
`n`, with no jitter, and the default `retryDelay` is 1000 ms. -/
theorem request_delays_pure_exponential :
    ∀ (cfg : HttpClient.Config) (α : Type) (attempt : Nat → Except AxiosError α),
      (HttpClient.request cfg attempt).delays =
        (List.range (HttpClient.request cfg attempt).delays.length).map
          (fun n => cfg.retryDelay * 2 ^ n) ∧
      ({} : HttpClient.Config).retryDelay = 1000 := by
  intro cfg α attempt
  refine ⟨?_, rfl⟩
  obtain ⟨m, hm⟩ := retryLoop_delays_spec cfg attempt cfg.maxRetries 0 []
  unfold HttpClient.request
  rw [hm]
  simp [List.range_eq_range', HttpClient.calculateBackoff]

/-- Helper: a run started from a quiescent state is never reported as
skipped (the guard only fires while a run is in flight). -/
theorem execute_not_skipped_of_quiescent
    (cfg : StrategyConfig) (cls : String) (env : ExecEnv) (dur tNow : Nat)
    (s : StrategyState) (h : s.isRunning = false) :
    (BaseStrategy.execute cfg cls env dur tNow s).1 ≠ ExecResult.skipped := by
  unfold BaseStrategy.execute
  cases hx : env.extract with
  | error e => simp [h, hx]
  | ok raw =>
    by_cases hemp : isEmptyData raw
    · simp [h, hx, hemp]
    · cases ht : env.transform raw with
      | error e => simp [h, hx, hemp, ht]
      | ok td =>
        cases hp : env.publish (topicOf cfg) td (strategyMeta cfg) <;>
          simp [h, hx, hemp, ht, hp]

/-- Helper: both variants leave `isRunning` false after any run started
from a quiescent state, whatever the stage behavior. -/
theorem execute_clears_isRunning
    (cfg : StrategyConfig) (cls : String) (env : ExecEnv) (dur tNow : Nat)
    (s : StrategyState) (h : s.isRunning = false) :
    (BaseStrategy.execute cfg cls env dur tNow s).2.1.isRunning = false ∧
    (BaseStrategyReactive.execute cfg cls env dur tNow s).2.1.isRunning = false := by
  unfold BaseStrategy.execute BaseStrategyReactive.execute
  cases hx : env.extract with
  | error e => simp [h, hx]
  | ok raw =>
    by_cases hemp : isEmptyData raw
    · simp [h, hx, hemp]
    · cases ht : env.transform raw with
      | error e => simp [h, hx, hemp, ht]
      | ok td =>
        cases hp : env.publish (topicOf cfg) td (strategyMeta cfg) <;>
          simp [h, hx, hemp, ht, hp]

/-- C2: the single-flight guard — in both variants, a call made while
`isRunning` is true returns the skipped result, leaves the state untouched,
and does not invoke `extract()` again. -/
theorem execute_single_flight_guard
    (cfg : StrategyConfig) (cls : String) (env : ExecEnv) (dur tNow : Nat)
    (s : StrategyState) (h : s.isRunning = true) :
    BaseStrategy.execute cfg cls env dur tNow s = (ExecResult.skipped, s, {}) ∧
    BaseStrategyReactive.execute cfg cls env dur tNow s = (ExecResult.skipped, s, {}) ∧
    (BaseStrategy.execute cfg cls env dur tNow s).2.2.extractCalls = 0 ∧
    (BaseStrategyReactive.execute cfg cls env dur tNow s).2.2.extractCalls = 0 := by
  refine ⟨?_, ?_, ?_, ?_⟩ <;>
    simp [BaseStrategy.execute, BaseStrategyReactive.execute, h]

/-- C2 witness: the guard theorem applied to a concrete in-flight state. -/
theorem execute_single_flight_guard_witness :
    (⟨true, none, none, 0⟩ : StrategyState).isRunning = true ∧
    (BaseStrategy.execute cfgCrm "ChatwootStrategy" emptyTickEnv 5 10
        ⟨true, none, none, 0⟩ = (ExecResult.skipped, ⟨true, none, none, 0⟩, {}) ∧
      BaseStrategyReactive.execute cfgCrm "ChatwootStrategy" emptyTickEnv 5 10
        ⟨true, none, none, 0⟩ = (ExecResult.skipped, ⟨true, none, none, 0⟩, {}) ∧
      (BaseStrategy.execute cfgCrm "ChatwootStrategy" emptyTickEnv 5 10
        ⟨true, none, none, 0⟩).2.2.extractCalls = 0 ∧
      (BaseStrategyReactive.execute cfgCrm "ChatwootStrategy" emptyTickEnv 5 10
        ⟨true, none, none, 0⟩).2.2.extractCalls = 0) :=
  ⟨rfl, execute_single_flight_guard cfgCrm "ChatwootStrategy" emptyTickEnv 5 10
    ⟨true, none, none, 0⟩ rfl⟩

/-- C3: `execute` never raises and contains failures — starting quiescent,
both variants end with `isRunning` false; if any stage fails with `e`, the
run resolves to `{success: false, error, duration}` with the
`handleStrategyError` record stored as `lastError`; and the pipeline remains
callable (the next run is never skipped). -/
theorem execute_never_raises_and_contains_failures
    (cfg : StrategyConfig) (cls : String) (env : ExecEnv) (dur tNow : Nat)
    (s : StrategyState) (h : s.isRunning = false) :
    (BaseStrategy.execute cfg cls env dur tNow s).2.1.isRunning = false ∧
    (BaseStrategyReactive.execute cfg cls env dur tNow s).2.1.isRunning = false ∧
    (∀ e, firstFailure cfg env = some e →
      (BaseStrategy.execute cfg cls env dur tNow s).1 =
        ExecResult.failure (ErrorHandler.handleStrategyError e cls cfg.name) dur ∧
      (BaseStrategy.execute cfg cls env dur tNow s).2.1.lastError =
        some (ErrorHandler.handleStrategyError e cls cfg.name) ∧
      (BaseStrategyReactive.execute cfg cls env dur tNow s).1 =
        ExecResult.failure (ErrorHandler.handleStrategyError e cls cfg.name) dur ∧
      (BaseStrategyReactive.execute cfg cls env dur tNow s).2.1.lastError =
        some (ErrorHandler.handleStrategyError e cls cfg.name)) ∧
    (∀ (env2 : ExecEnv) (dur2 tNow2 : Nat),
      (BaseStrategy.execute cfg cls env2 dur2 tNow2
        (BaseStrategy.execute cfg cls env dur tNow s).2.1).1 ≠ ExecResult.skipped) := by
  obtain ⟨hA, hR⟩ := execute_clears_isRunning cfg cls env dur tNow s h
  refine ⟨hA, hR, ?_, ?_⟩
  · intro e he
    unfold firstFailure at he
    unfold BaseStrategy.execute BaseStrategyReactive.execute
    cases hx : env.extract with
    | error e2 =>
      simp only [hx, Option.some.injEq] at he
      subst he
      simp [h, hx]
    | ok raw =>
      by_cases hemp : isEmptyData raw
      · simp [hx, hemp] at he
      · simp only [hx, hemp, Bool.false_eq_true, if_false] at he
        cases ht : env.transform raw with
        | error e2 =>
          simp only [ht, Option.some.injEq] at he
          subst he
          simp [h, hx, hemp, ht]
        | ok td =>
          simp only [ht] at he
          cases hp : env.publish (topicOf cfg) td (strategyMeta cfg) with
          | error e2 =>
            simp only [hp, Option.some.injEq] at he
            subst he
            simp [h, hx, hemp, ht, hp]
          | ok u =>
            simp only [hp] at he
            simp at he
  · intro env2 dur2 tNow2
    exact execute_not_skipped_of_quiescent cfg cls env2 dur2 tNow2 _ hA

/-- C3 witness: the containment theorem applied to a fresh pipeline with an
extractor that always fails. -/
theorem execute_never_raises_witness :
    ({} : StrategyState).isRunning = false ∧
    ((BaseStrategy.execute cfgCrm "ChatwootStrategy" failEnv 5 10 {}).2.1.isRunning = false ∧
      (BaseStrategyReactive.execute cfgCrm "ChatwootStrategy" failEnv 5 10 {}).2.1.isRunning = false ∧
      (∀ e, firstFailure cfgCrm failEnv = some e →
        (BaseStrategy.execute cfgCrm "ChatwootStrategy" failEnv 5 10 {}).1 =
          ExecResult.failure
            (ErrorHandler.handleStrategyError e "ChatwootStrategy" cfgCrm.name) 5 ∧
        (BaseStrategy.execute cfgCrm "ChatwootStrategy" failEnv 5 10 {}).2.1.lastError =
          some (ErrorHandler.handleStrategyError e "ChatwootStrategy" cfgCrm.name) ∧
        (BaseStrategyReactive.execute cfgCrm "ChatwootStrategy" failEnv 5 10 {}).1 =
          ExecResult.failure
            (ErrorHandler.handleStrategyError e "ChatwootStrategy" cfgCrm.name) 5 ∧
        (BaseStrategyReactive.execute cfgCrm "ChatwootStrategy" failEnv 5 10 {}).2.1.lastError =
          some (ErrorHandler.handleStrategyError e "ChatwootStrategy" cfgCrm.name)) ∧
      (∀ (env2 : ExecEnv) (dur2 tNow2 : Nat),
        (BaseStrategy.execute cfgCrm "ChatwootStrategy" env2 dur2 tNow2
          (BaseStrategy.execute cfgCrm "ChatwootStrategy" failEnv 5 10 {}).2.1).1 ≠
          ExecResult.skipped)) :=
  ⟨rfl, execute_never_raises_and_contains_failures cfgCrm "ChatwootStrategy"
    failEnv 5 10 {} rfl⟩

/-- C6: an empty extraction (null/undefined or an empty array) resolves to
`{success: true, recordsProcessed: 0}` in both variants (the async variant
with no duration field, the reactive one with a duration) and never invokes
`publisher.publish()`. -/
theorem execute_empty_extraction_no_publish
    (cfg : StrategyConfig) (cls : String) (env : ExecEnv) (dur tNow : Nat)
    (s : StrategyState) (raw : JsData) (h : s.isRunning = false)
    (hx : env.extract = Except.ok raw) (hemp : isEmptyData raw = true) :
    (BaseStrategy.execute cfg cls env dur tNow s).1 = ExecResult.success 0 none ∧
    (BaseStrategy.execute cfg cls env dur tNow s).2.2.publishCalls = [] ∧
    (BaseStrategyReactive.execute cfg cls env dur tNow s).1 =
      ExecResult.success 0 (some dur) ∧
    (BaseStrategyReactive.execute cfg cls env dur tNow s).2.2.publishCalls = [] := by
  unfold BaseStrategy.execute BaseStrategyReactive.execute
  refine ⟨?_, ?_, ?_, ?_⟩ <;> simp [h, hx, hemp]

/-- C6 witness: the empty-extraction theorem applied to a fresh pipeline and
an extractor yielding the empty array. -/
theorem execute_empty_extraction_witness :
    (({} : StrategyState).isRunning = false ∧
      emptyTickEnv.extract = Except.ok (JsData.arr []) ∧
      isEmptyData (JsData.arr []) = true) ∧
    ((BaseStrategy.execute cfgCrm "ChatwootStrategy" emptyTickEnv 5 10 {}).1 =
        ExecResult.success 0 none ∧
      (BaseStrategy.execute cfgCrm "ChatwootStrategy" emptyTickEnv 5 10 {}).2.2.publishCalls = [] ∧
      (BaseStrategyReactive.execute cfgCrm "ChatwootStrategy" emptyTickEnv 5 10 {}).1 =
        ExecResult.success 0 (some 5) ∧
      (BaseStrategyReactive.execute cfgCrm "ChatwootStrategy" emptyTickEnv 5 10 {}).2.2.publishCalls = []) :=
  ⟨⟨rfl, rfl, rfl⟩, execute_empty_extraction_no_publish cfgCrm "ChatwootStrategy"
    emptyTickEnv 5 10 {} (JsData.arr []) rfl rfl rfl⟩

/-- C7: evaluating both variants on the failing input — a fresh pipeline
whose extractor yields the empty array. The reactive variant increments
`executionCount` to 1 on this empty-extraction run (its success tap fires on
the early result), while the async variant leaves it at 0 as the claim and
spec §3/§8 require. -/
theorem reactive_empty_run_increments_executionCount :
    (BaseStrategyReactive.execute cfgCrm "ChatwootStrategy" emptyTickEnv 5 10
      {}).2.1.executionCount = 1 ∧
    (BaseStrategyReactive.execute cfgCrm "ChatwootStrategy" emptyTickEnv 5 10 {}).1 =
      ExecResult.success 0 (some 5) ∧
    (BaseStrategy.execute cfgCrm "ChatwootStrategy" emptyTickEnv 5 10
      {}).2.1.executionCount = 0 :=
  ⟨rfl, rfl, rfl⟩

/-- C9: when schema-registry encoding of the envelope fails, the formatter
falls back to the unencoded `{metadata:{source,type,timestamp,version},
payload}` envelope (first part), and the publisher still builds the outbound
record around that plain envelope — the message stays in the batch handed to
the producer send, so the publish does not raise because of the encoding
failure (second part). -/
theorem formatForKafka_encoding_failure_falls_back :
    ∀ (cfg : DataFormatter.Config) (encode : String → Envelope → Except JsError Nat)
      (ts : String),
      (∀ (data : Item) (source ty : String) (options : DataFormatter.FormatOptions)
        (e : JsError),
        encode (DataFormatter.encodeSubject source ty options)
            (DataFormatter.buildEnvelope data source ty ts) = Except.error e →
        DataFormatter.formatForKafka cfg encode data source ty options ts =
          KafkaValue.plain (DataFormatter.buildEnvelope data source ty ts)) ∧
      (∀ (item : Item) (metadata : PubMeta) (e : JsError),
        encode
            (DataFormatter.encodeSubject (jsOrStr metadata.source "unknown")
              (jsOrStr metadata.type "data") {})
            (DataFormatter.buildEnvelope item (jsOrStr metadata.source "unknown")
              (jsOrStr metadata.type "data") ts) = Except.error e →
        KafkaPublisher.prepareMessages cfg encode [item] metadata ts =
          [{ key := KafkaPublisher.generateKey item metadata
             value := KafkaValue.plain (DataFormatter.buildEnvelope item
               (jsOrStr metadata.source "unknown") (jsOrStr metadata.type "data") ts)
             headers :=
               { source := jsOrStr metadata.source "unknown"
                 type := jsOrStr metadata.type "data"
                 timestamp := ts } }]) := by
  intro cfg encode ts
  have hforma : ∀ (data : Item) (source ty : String)
      (options : DataFormatter.FormatOptions) (e : JsError),
      encode (DataFormatter.encodeSubject source ty options)
          (DataFormatter.buildEnvelope data source ty ts) = Except.error e →
      DataFormatter.formatForKafka cfg encode data source ty options ts =
        KafkaValue.plain (DataFormatter.buildEnvelope data source ty ts) := by
    intro data source ty options e henc
    unfold DataFormatter.formatForKafka
    by_cases hreg : cfg.useSchemaRegistry && cfg.hasClient
    · simp [hreg, henc]
    · simp [hreg]
  refine ⟨hforma, ?_⟩
  intro item metadata e henc
  unfold KafkaPublisher.prepareMessages KafkaPublisher.prepareMessage
  simp [hforma item (jsOrStr metadata.source "unknown") (jsOrStr metadata.type "data")
    {} e henc]

/-- C9 witness: the fallback theorem applied to an encoder that always
fails, a concrete item, and concrete metadata. -/
theorem formatForKafka_encoding_failure_witness :
    (alwaysFailEncode
        (DataFormatter.encodeSubject "crm" "contacts" {})
        (DataFormatter.buildEnvelope { id := some (.num 7) } "crm" "contacts" "T") =
      Except.error { message := "Schema encode failed" } ∧
      alwaysFailEncode
        (DataFormatter.encodeSubject (jsOrStr (some "crm") "unknown")
          (jsOrStr (some "contacts") "data") {})
        (DataFormatter.buildEnvelope { id := some (.num 7) }
          (jsOrStr (some "crm") "unknown") (jsOrStr (some "contacts") "data") "T") =
      Except.error { message := "Schema encode failed" }) ∧
    (DataFormatter.formatForKafka ⟨true, true⟩ alwaysFailEncode { id := some (.num 7) }
        "crm" "contacts" {} "T" =
      KafkaValue.plain (DataFormatter.buildEnvelope { id := some (.num 7) }
        "crm" "contacts" "T") ∧
      KafkaPublisher.prepareMessages ⟨true, true⟩ alwaysFailEncode
        [{ id := some (.num 7) }] { source := some "crm", type := some "contacts" } "T" =
        [{ key := KafkaPublisher.generateKey { id := some (.num 7) }
             { source := some "crm", type := some "contacts" }
           value := KafkaValue.plain (DataFormatter.buildEnvelope { id := some (.num 7) }
             (jsOrStr (some "crm") "unknown") (jsOrStr (some "contacts") "data") "T")
           headers :=
             { source := jsOrStr (some "crm") "unknown"
               type := jsOrStr (some "contacts") "data"
               timestamp := "T" } }]) :=
  ⟨⟨rfl, rfl⟩,
    (formatForKafka_encoding_failure_falls_back ⟨true, true⟩ alwaysFailEncode "T").1
      { id := some (.num 7) } "crm" "contacts" {} { message := "Schema encode failed" } rfl,
    (formatForKafka_encoding_failure_falls_back ⟨true, true⟩ alwaysFailEncode "T").2
      { id := some (.num 7) } { source := some "crm", type := some "contacts" }
      { message := "Schema encode failed" } rfl⟩

/-- C10 (implicit): with `metadata.source` absent, the outbound record's
headers and envelope metadata carry source "unknown" (and type "data" when
`metadata.type` is absent), while the partition key of an item with neither
`id` nor `_id` falls back to the literal "default", so the header source and
the key fallback disagree. -/
theorem prepareMessage_unknown_source_vs_default_key :
    ∀ (cfg : DataFormatter.Config) (encode : String → Envelope → Except JsError Nat)
      (item : Item) (metadata : PubMeta) (ts : String),
      metadata.source = none →
      ((KafkaPublisher.prepareMessage cfg encode item metadata ts).headers.source =
        "unknown" ∧
      (metadata.type = none →
        (KafkaPublisher.prepareMessage cfg encode item metadata ts).headers.type =
          "data") ∧
      (KafkaPublisher.prepareMessage ⟨false, false⟩ encode item metadata ts).value =
        KafkaValue.plain (DataFormatter.buildEnvelope item "unknown"
          (jsOrStr metadata.type "data") ts) ∧
      (DataFormatter.buildEnvelope item "unknown" (jsOrStr metadata.type "data")
        ts).metadata.source = "unknown" ∧
      (item.id = none → item.mId = none →
        (KafkaPublisher.prepareMessage cfg encode item metadata ts).key = "default") ∧
      ("default" : String) ≠ "unknown") := by
  intro cfg encode item metadata ts hsrc
  refine ⟨?_, ?_, ?_, rfl, ?_, by decide⟩
  · simp [KafkaPublisher.prepareMessage, jsOrStr, hsrc]
  · intro hty
    simp [KafkaPublisher.prepareMessage, jsOrStr, hty]
  · simp [KafkaPublisher.prepareMessage, DataFormatter.formatForKafka, jsOrStr, hsrc]
  · intro hid hmid
    simp [KafkaPublisher.prepareMessage, KafkaPublisher.generateKey, jsTruthyOpt,
      jsOrStr, hsrc, hid, hmid]

/-- C10 witness: the disagreement theorem applied to an item with neither
identifier and metadata with no source or type. -/
theorem prepareMessage_unknown_source_vs_default_key_witness :
    (({} : PubMeta).source = none) ∧
    ((KafkaPublisher.prepareMessage ⟨false, false⟩ alwaysFailEncode {} {} "T").headers.source =
      "unknown" ∧
    (({} : PubMeta).type = none →
      (KafkaPublisher.prepareMessage ⟨false, false⟩ alwaysFailEncode {} {} "T").headers.type =
        "data") ∧
    (KafkaPublisher.prepareMessage ⟨false, false⟩ alwaysFailEncode {} {} "T").value =
      KafkaValue.plain (DataFormatter.buildEnvelope {} "unknown"
        (jsOrStr ({} : PubMeta).type "data") "T") ∧
    (DataFormatter.buildEnvelope {} "unknown" (jsOrStr ({} : PubMeta).type "data")
      "T").metadata.source = "unknown" ∧
    (({} : Item).id = none → ({} : Item).mId = none →
      (KafkaPublisher.prepareMessage ⟨false, false⟩ alwaysFailEncode {} {} "T").key =
        "default") ∧
    ("default" : String) ≠ "unknown") :=
  ⟨rfl, prepareMessage_unknown_source_vs_default_key ⟨false, false⟩ alwaysFailEncode
    {} {} "T" rfl⟩
